import Mathlib

/-!
Shallow embedding of the `very-express` document-access core: the
filter/pagination/lookup engine (`_getAll`, `_getOne`, `_updateOne`,
`_deleteOne`), identifier coercion (`id` in `src/utils`), and the
authentication guard (`protect`, `socketProtect`, and the second `protect`
variant).  Documents are association lists of field values, the database a
named list of collections.  The MongoDB driver and the JWT library are
external collaborators; the parts of their behaviour the claims depend on
are modelled explicitly and marked as such.
-/

namespace VeryExpress

/-- A JSON-ish field value as stored in a document or used in a filter.
`vId` is a native ObjectId (normalized hex); `vDocV` embeds a whole
document, as produced by the lookup join. -/
inductive Value where
  | vInt  : Int → Value
  | vStr  : String → Value
  | vId   : String → Value
  | vNull : Value
  | vDocV : List (String × Value) → Value
deriving Repr

/-- A document: an association list of named field values. -/
abbrev Doc := List (String × Value)

/-- Mongo-style equality between two values (used by filter matching and
by the lookup join's foreign-field match). -/
def valueBeq : Value → Value → Bool
  | .vInt a, .vInt b => a == b
  | .vStr a, .vStr b => a == b
  | .vId a, .vId b => a == b
  | .vNull, .vNull => true
  | .vDocV a, .vDocV b => fieldsBeq a b
  | _, _ => false
where
  /-- Field-list equality, pointwise and in order. -/
  fieldsBeq : List (String × Value) → List (String × Value) → Bool
  | [], [] => true
  | (k1, v1) :: r1, (k2, v2) :: r2 => k1 == k2 && valueBeq v1 v2 && fieldsBeq r1 r2
  | _, _ => false

/-- JavaScript truthiness of a field value: `null`, `0` and the empty
string are falsy; objects (including ObjectIds) are truthy. -/
def Value.truthy : Value → Bool
  | .vInt n => n != 0
  | .vStr s => s != ""
  | .vId _ => true
  | .vNull => false
  | .vDocV _ => true

/-- First value bound to field `k` in document `d`, if any. -/
def getField (d : Doc) (k : String) : Option Value :=
  (d.find? (fun p => p.1 == k)).map (fun p => p.2)

/-- Field read with JS-undefined collapsed to null (the driver serializes
an `undefined` query value as null). -/
def getValueD (d : Doc) (k : String) : Value :=
  (getField d k).getD .vNull

/-- JS object assignment `d[k] = v`: overwrite the existing key in place,
else append the new key. -/
def setField (d : Doc) (k : String) (v : Value) : Doc :=
  if d.any (fun p => p.1 == k) then
    d.map (fun p => if p.1 == k then (k, v) else p)
  else d ++ [(k, v)]

/-- A filter: a conjunction of field-equality constraints (the part of the
Mongo filter language the embedded operations manipulate). -/
abbrev Filter := List (String × Value)

/-- A document matches a filter when every constrained field is equal to
the constraint's value; the empty filter matches everything. -/
def matchesFilter (d : Doc) (f : Filter) : Bool :=
  f.all (fun p => valueBeq (getValueD d p.1) p.2)

/-- The database: collections by name. -/
abbrev Db := List (String × List Doc)

/-- The documents of collection `table` (empty when absent). -/
def dbColl (dbv : Db) (table : String) : List Doc :=
  ((dbv.find? (fun c => c.1 == table)).map (fun c => c.2)).getD []

/-- `collection(table).find(filter)`: all matching documents in
collection order. -/
def dbFind (dbv : Db) (table : String) (f : Filter) : List Doc :=
  (dbColl dbv table).filter (fun d => matchesFilter d f)

/-- `collection(table).findOne(filter)`: the first matching document. -/
def dbFindOne (dbv : Db) (table : String) (f : Filter) : Option Doc :=
  (dbColl dbv table).find? (fun d => matchesFilter d f)

/-! ### Identifier coercion (`id` in `src/utils`, C8) -/

/-- Hexadecimal digit test. -/
def isHexChar (c : Char) : Bool :=
  c.isDigit || ('a' ≤ c && c ≤ 'f') || ('A' ≤ c && c ≤ 'F')

/-- Modelled from the spec: the document store's native-identifier
validity predicate (`ObjectId.isValid` of the MongoDB driver, which is
not part of this repository).  A value is a valid identifier when it is
already native or is a 24-character hexadecimal string. -/
def isValidObjectId : Value → Bool
  | .vId _ => true
  | .vStr s => s.length == 24 && s.toList.all isHexChar
  | _ => false

/-- Modelled from the spec: the driver's `new ObjectId(v)` constructor on
values accepted by `isValidObjectId` — an already-native identifier is
copied, a hex string is normalized to lower case. -/
def mkObjectId : Value → String
  | .vId h => h
  | .vStr s => s.toLower
  | _ => ""

/-- Errors raised by the data-access operations. -/
inductive DbError where
  | invalidId : Value → DbError
  | documentNotExist : Option Filter → DbError
deriving Repr

/-- The `id` coercion function (`src/utils`, part_006): a valid value is
converted to a native ObjectId, an invalid one raises `InvalidIdError`
carrying the offending raw value. -/
def idCoerce (v : Value) : Except DbError Value :=
  if isValidObjectId v then .ok (.vId (mkObjectId v)) else .error (.invalidId v)

/-- The shared `_id` coercion prologue of the four operations:
`if (options?.filter && options.filter._id) options.filter._id = id(...)`.
Only a present and truthy `_id` is coerced; failure aborts the
operation. -/
def coerceFilter (f : Option Filter) : Except DbError (Option Filter) :=
  match f with
  | none => .ok none
  | some flt =>
    match getField flt "_id" with
    | some v =>
      if v.truthy then
        match idCoerce v with
        | .ok w => .ok (some (setField flt "_id" w))
        | .error e => .error e
      else .ok (some flt)
    | none => .ok (some flt)

/-! ### Lookup join -/

/-- `LookupSpec` (`Lookup` in `src/types`): single-hop foreign-key
enrichment parameters. -/
structure Lookup where
  local_field : String
  foreign_collection : String
  foreign_field : String
  as : Option String
deriving Repr

/-- The call-site enablement test: all three mandatory lookup fields must
be truthy (non-empty) strings. -/
def lookupFieldsPresent (l : Lookup) : Bool :=
  l.foreign_collection != "" && l.foreign_field != "" && l.local_field != ""

/-- `as || local_field`: the alias under which the joined document is
attached (an empty-string alias is falsy in JS and falls back too). -/
def asFieldName (l : Lookup) : String :=
  match l.as with
  | some a => if a = "" then l.local_field else a
  | none => l.local_field

/-- One-hop enrichment of a single result document: fetch the first
foreign document whose `foreign_field` equals the document's
`local_field` value and attach it (or an explicit null) under the
alias. -/
def lookupEnrich (dbv : Db) (l : Lookup) (d : Doc) : Doc :=
  let flt : Filter := [(l.foreign_field, getValueD d l.local_field)]
  match dbFindOne dbv l.foreign_collection flt with
  | some f => setField d (asFieldName l) (.vDocV f)
  | none => setField d (asFieldName l) .vNull

/-! ### FetchOne (`_getOne`) -/

/-- `GetOneOptions`. -/
structure GetOneOptions where
  filter : Option Filter
  lookup : Option Lookup
  returnedMessage : Option String
deriving Repr

/-- `GetOneSuccessResponse`. -/
structure GetOneSuccessResponse where
  status : String
  data : Option Doc
  table : String
  message : Option String
  response_created_at : Int
deriving Repr

/-- `_getOne` (`src/database/functions/getOne.ts`): coerce `_id`, find the
first matching document, enrich it with the lookup when one is present
and a document was found, and wrap the (possibly null) result in a
success envelope.  The second component is the caller's options object
after the in-place `_id` mutation. -/
def _getOne (table : String) (dbv : Db) (options : Option GetOneOptions) (now : Int) :
    Except DbError GetOneSuccessResponse × Option GetOneOptions :=
  match coerceFilter (options.bind (fun o => o.filter)) with
  | .error e => (.error e, options)
  | .ok f' =>
    let options := options.map (fun o => { o with filter := f' })
    let result := dbFindOne dbv table (f'.getD [])
    let result :=
      match result, options.bind (fun o => o.lookup) with
      | some d, some l => if lookupFieldsPresent l then some (lookupEnrich dbv l d) else some d
      | r, _ => r
    (.ok { status := "success", data := result, table := table,
           message := options.bind (fun o => o.returnedMessage),
           response_created_at := now }, options)

/-! ### FetchMany (`_getAll`) -/

/-- A sort specification: ordered field/direction pairs (1 ascending,
-1 descending). -/
abbrev SortSpec := List (String × Int)

/-- A boolean order on values used by the store's sort (the concrete
order is owned by the store; any total length-preserving sort is a
faithful model, the claims do not depend on the order itself). -/
def valueRank : Value → Nat
  | .vNull => 0
  | .vInt _ => 1
  | .vStr _ => 2
  | .vId _ => 3
  | .vDocV _ => 4

/-- Comparison of two values of like shape, falling back to shape rank. -/
def valueLe (a b : Value) : Bool :=
  match a, b with
  | .vInt x, .vInt y => x ≤ y
  | .vStr x, .vStr y => x ≤ y
  | .vId x, .vId y => x ≤ y
  | _, _ => valueRank a ≤ valueRank b

/-- Lexicographic document order induced by a sort specification. -/
def docLe (spec : SortSpec) (d1 d2 : Doc) : Bool :=
  match spec with
  | [] => true
  | (k, dir) :: rest =>
    let a := getValueD d1 k
    let b := getValueD d2 k
    if valueBeq a b then docLe rest d1 d2
    else if dir < 0 then valueLe b a else valueLe a b

/-- Insert a document into an already sorted list. -/
def insertDoc (le : Doc → Doc → Bool) (d : Doc) : List Doc → List Doc
  | [] => [d]
  | e :: rest => if le d e then d :: e :: rest else e :: insertDoc le d rest

/-- Model of the store's `.sort(sortSpec)` stage (insertion sort; any
length-preserving reordering is faithful, see `docLe`). -/
def sortDocs (le : Doc → Doc → Bool) : List Doc → List Doc
  | [] => []
  | d :: rest => insertDoc le d (sortDocs le rest)

/-- `GetAllOptions`. -/
structure GetAllOptions where
  filter : Option Filter
  page : Option Nat
  limit : Option Nat
  sort : Option SortSpec
  lookup : Option Lookup
  returnedMessage : Option String
deriving Repr

/-- `GetAllSuccessResponse`. -/
structure GetAllSuccessResponse where
  status : String
  data : List Doc
  table : String
  totalDocs : Nat
  totalPages : Nat
  currentPage : Nat
  limit : Nat
  message : Option String
  response_created_at : Int
deriving Repr

/-- JS `x || default` on an optional number: `undefined` and `0` both
fall back. -/
def jsOrNat (v : Option Nat) (d : Nat) : Nat :=
  match v with
  | some n => if n = 0 then d else n
  | none => d

/-- `Math.ceil(a / b)` on natural inputs under exact (rational)
semantics. -/
def mathCeilDiv (a b : Nat) : Nat := (a + b - 1) / b

/-- `_getAll` (`src/database/functions/getAll.ts`): defaults
`page || 1`, `limit || 20`, `sort || {}`; coerces the filter's `_id`;
queries with filter, sort, `skip((page-1)*limit)`, `limit(limit)`;
enriches every result via the lookup when one is enabled; counts the
documents matching the same (unpaginated) filter; and returns the
pagination envelope.  The second component is the caller's options
object after the in-place `_id` mutation. -/
def _getAll (table : String) (dbv : Db) (options : Option GetAllOptions) (now : Int) :
    Except DbError GetAllSuccessResponse × Option GetAllOptions :=
  let page := jsOrNat (options.bind (fun o => o.page)) 1
  let limit := jsOrNat (options.bind (fun o => o.limit)) 20
  let sort := (options.bind (fun o => o.sort)).getD []
  match coerceFilter (options.bind (fun o => o.filter)) with
  | .error e => (.error e, options)
  | .ok f' =>
    let options := options.map (fun o => { o with filter := f' })
    let found := dbFind dbv table (f'.getD [])
    let results0 := ((sortDocs (docLe sort) found).drop ((page - 1) * limit)).take limit
    let results :=
      match options.bind (fun o => o.lookup) with
      | some l => if lookupFieldsPresent l then results0.map (lookupEnrich dbv l) else results0
      | none => results0
    let count := (dbFind dbv table (f'.getD [])).length
    (.ok { status := "success", data := results, table := table,
           totalDocs := count, totalPages := mathCeilDiv count limit,
           currentPage := page, limit := limit,
           message := options.bind (fun o => o.returnedMessage),
           response_created_at := now }, options)

/-! ### DeleteOne (`_deleteOne`) -/

/-- `DeleteOneOptions`. -/
structure DeleteOneOptions where
  filter : Option Filter
  returnedMessage : Option String
deriving Repr

/-- `DeleteOneSuccessResponse` (carries no data field). -/
structure DeleteOneSuccessResponse where
  status : String
  table : String
  message : Option String
  response_created_at : Int
deriving Repr

/-- `collection.deleteOne(filter)`: remove the first matching document,
reporting the resulting collection and the deleted count (0 or 1). -/
def deleteFirst (p : Doc → Bool) : List Doc → List Doc × Nat
  | [] => ([], 0)
  | d :: rest =>
    if p d then (rest, 1)
    else
      let (rest', n) := deleteFirst p rest
      (d :: rest', n)

/-- Replace the contents of collection `table`. -/
def dbSet (dbv : Db) (table : String) (docs : List Doc) : Db :=
  dbv.map (fun c => if c.1 == table then (c.1, docs) else c)

/-- `_deleteOne` (`src/database/functions/deleteOne.ts`): coerce `_id`,
delete at most one matching document, and raise `DocumentNotExistError`
carrying the filter used when nothing was deleted.  Returns the result,
the updated database, and the caller's options after the in-place `_id`
mutation. -/
def _deleteOne (table : String) (dbv : Db) (options : Option DeleteOneOptions) (now : Int) :
    Except DbError DeleteOneSuccessResponse × Db × Option DeleteOneOptions :=
  match coerceFilter (options.bind (fun o => o.filter)) with
  | .error e => (.error e, dbv, options)
  | .ok f' =>
    let options := options.map (fun o => { o with filter := f' })
    let (coll', deletedCount) := deleteFirst (fun d => matchesFilter d (f'.getD [])) (dbColl dbv table)
    if deletedCount = 0 then
      (.error (.documentNotExist (options.bind (fun o => o.filter))), dbv, options)
    else
      (.ok { status := "success", table := table,
             message := options.bind (fun o => o.returnedMessage),
             response_created_at := now }, dbSet dbv table coll', options)

/-! ### UpdateOne (`_updateOne`) -/

/-- `UpdateOneOptions`. -/
structure UpdateOneOptions where
  filter : Option Filter
  returnNew : Option Bool
  returnedMessage : Option String
deriving Repr

/-- `UpdateOneSuccessResponse`. -/
structure UpdateOneSuccessResponse where
  status : String
  data : Doc
  table : String
  returnedNew : Bool
  message : Option String
  response_created_at : Int
deriving Repr

/-- The update document (`$set`, `$inc`, ...) as the transformation the
store applies to the matched document; its concrete semantics belong to
the store. -/
abbrev UpdateObject := Doc → Doc

/-- Replace the first matching document with `d'`. -/
def replaceFirst (p : Doc → Bool) (d' : Doc) : List Doc → List Doc
  | [] => []
  | d :: rest => if p d then d' :: rest else d :: replaceFirst p d' rest

/-- `_updateOne` (part_004): coerce `_id`, run an atomic
`findOneAndUpdate` returning the pre- or post-update document per
`options.returnNew === true`, and raise `DocumentNotExistError` carrying
the filter when nothing matched.  Returns the result, the updated
database, and the caller's options after the in-place `_id` mutation. -/
def _updateOne (table : String) (dbv : Db) (updateObject : UpdateObject)
    (options : UpdateOneOptions) (now : Int) :
    Except DbError UpdateOneSuccessResponse × Db × UpdateOneOptions :=
  match coerceFilter options.filter with
  | .error e => (.error e, dbv, options)
  | .ok f' =>
    let options := { options with filter := f' }
    match dbFindOne dbv table (f'.getD []) with
    | none => (.error (.documentNotExist options.filter), dbv, options)
    | some d =>
      let d' := updateObject d
      let dbv' := dbSet dbv table
        (replaceFirst (fun x => matchesFilter x (f'.getD [])) d' (dbColl dbv table))
      let returnedNew := options.returnNew == some true
      (.ok { status := "success", data := if returnedNew then d' else d, table := table,
             returnedNew := returnedNew,
             message := options.returnedMessage,
             response_created_at := now }, dbv', options)

/-! ### Guard configuration (`secret`, `tokenExpirationInSeconds`, C9) -/

/-- `toStr` (`src/parsers`): stringify unless null/undefined, else the
fallback. -/
def toStr (value : Option String) (fallbackString : String := "") : String :=
  match value with
  | some s => s
  | none => fallbackString

/-- `toInt` (`src/parsers`): parse an integer, else the fallback.  The
environment value is modelled post-parse. -/
def toInt (value : Option Int) (fallbackValue : Int := 0) : Int :=
  match value with
  | some n => n
  | none => fallbackValue

/-- The JWT verification service as configured by the guard module: a
shared secret and a token lifetime (the verification algorithm itself is
the external `jsonwebtoken` collaborator). -/
structure JwtService where
  secret : String
  tokenExpirationInSeconds : Int
deriving Repr

/-- `const secret = toStr(process.env?.JWT_SECRET, 'change this secret')`
(both `protect` variants). -/
def guardSecret (envJwtSecret : Option String) : String :=
  toStr envJwtSecret "change this secret"

/-- `const tokenExpirationInSeconds = toInt(process.env?.JWT_EXPIRATION_IN_SECONDS, 60 * 60)`. -/
def guardTokenExpiration (envJwtExpiration : Option Int) : Int :=
  toInt envJwtExpiration (60 * 60)

/-- `new JwtService(secret, tokenExpirationInSeconds)`: the service the
guard verifies every token against. -/
def guardJwtService (envJwtSecret : Option String) (envJwtExpiration : Option Int) : JwtService :=
  { secret := guardSecret envJwtSecret,
    tokenExpirationInSeconds := guardTokenExpiration envJwtExpiration }

/-! ### Guard state machine (`protect`, `socketProtect`, C4–C6) -/

/-- The decoded token payload: the `jwt` module's `signToken` signs
`{ id }`, so `id` is the subject identifier field (an arbitrary JSON
value after decoding). -/
structure Payload where
  id : Value
deriving Repr

/-- An error thrown by `jwtService.verifyToken`.  The `jwt` module (the
second staged part of `src/email/index.ts`) re-exports the
`jsonwebtoken` library's error classes: `TokenExpiredError` (re-exported
as `JwtTokenExpiredError`, carrying `expiredAt`), `NotBeforeError`
(carrying `date`), and their common base class `JsonWebTokenError`
(signature/format failures); any other error is unrelated to that
hierarchy. -/
inductive JwtVerifyError where
  | tokenExpired : Int → JwtVerifyError
  | notBefore : Int → JwtVerifyError
  | jsonWebToken : JwtVerifyError
  | other : String → JwtVerifyError
deriving Repr

/-- `error instanceof JwtTokenExpiredError` (jsonwebtoken's
`TokenExpiredError`, a leaf class). -/
def isJwtTokenExpiredError : JwtVerifyError → Bool
  | .tokenExpired _ => true
  | _ => false

/-- `error instanceof JsonWebTokenError`.  In the `jsonwebtoken` library
`TokenExpiredError` and `NotBeforeError` are SUBCLASSES of
`JsonWebTokenError`, so all three kinds are instances of the base
class. -/
def isJsonWebTokenError : JwtVerifyError → Bool
  | .tokenExpired _ => true
  | .notBefore _ => true
  | .jsonWebToken => true
  | .other _ => false

/-- `error instanceof NotBeforeError` (a leaf class). -/
def isNotBeforeError : JwtVerifyError → Bool
  | .notBefore _ => true
  | _ => false

/-- `error.expiredAt.getTime()` of an expired-token error. -/
def JwtVerifyError.expiredAtTime : JwtVerifyError → Int
  | .tokenExpired t => t
  | _ => 0

/-- `error.date.getTime()` of a not-before error. -/
def JwtVerifyError.dateTime : JwtVerifyError → Int
  | .notBefore d => d
  | _ => 0

/-- The message of an error unrelated to the jsonwebtoken hierarchy,
which the guard rethrows unmapped. -/
def JwtVerifyError.errMsg : JwtVerifyError → String
  | .other m => m
  | _ => ""

/-- The outcome of `await jwtService.verifyToken(token)`: the decoded
payload (`ok none` models a verified token whose decoded payload is
absent), or a thrown `JwtVerifyError`.  Which outcome a given token
produces is the `jsonwebtoken` library's cryptographic behaviour, kept
abstract as a parameter of the guard embeddings. -/
inductive VerifyOutcome where
  | ok : Option Payload → VerifyOutcome
  | err : JwtVerifyError → VerifyOutcome
deriving Repr

/-- The guard's failure taxonomy (each constructor is one of the error
classes in `src/errors`); `propagated` is an error rethrown unmapped. -/
inductive GuardError where
  | development : String → GuardError
  | notLoggedIn : GuardError
  | tokenExpired : Int → GuardError
  | invalidToken : GuardError
  | invalidId : Value → GuardError
  | userNoLongerExists : Value → GuardError
  | permissionDenied : String → GuardError
  | propagated : String → GuardError
deriving Repr

/-- What ends up in the request's / connection's user slot. -/
inductive AttachedUser where
  | doc : Doc → AttachedUser
  | envelope : GetOneSuccessResponse → AttachedUser
deriving Repr

/-- Final state of one guard invocation: the termination outcome and the
user slot's content. -/
structure GuardResult where
  outcome : Except GuardError Unit
  userSlot : Option AttachedUser
deriving Repr

/-- The HTTP request surface the guard reads. -/
structure ReqModel where
  authorization : Option String
  cookiesJwt : Option String
  url : String
deriving Repr

/-- Token extraction of the HTTP `protect` variants: a
`Bearer`-prefixed authorization header yields its second
space-separated chunk (which, when absent or empty, leaves no token
without falling through); otherwise the `jwt` cookie; an empty final
token counts as absent (`!token`). -/
def extractTokenHttp (r : ReqModel) : Option String :=
  let token : Option String :=
    match r.authorization with
    | some a => if a.startsWith "Bearer" then (a.splitOn " ").get? 1 else r.cookiesJwt
    | none => r.cookiesJwt
  match token with
  | some t => if t = "" then none else some t
  | none => none

/-- The socket handshake surface `socketProtect` reads. -/
structure SocketModel where
  authToken : Option String
  headersAuthorization : Option String
deriving Repr

/-- Token extraction of `socketProtect`: a `Bearer`-prefixed
`handshake.auth.token` yields its second chunk; otherwise the whole
`handshake.headers.authorization` value is the token, unstripped. -/
def extractTokenSocket (s : SocketModel) : Option String :=
  let token : Option String :=
    match s.authToken with
    | some a =>
      if a.startsWith "Bearer" then (a.splitOn " ").get? 1 else s.headersAuthorization
    | none => s.headersAuthorization
  match token with
  | some t => if t = "" then none else some t
  | none => none

/-- The catch block shared (verbatim) by all guard variants, with the
`instanceof` chain embedded in source order:
`JwtTokenExpiredError → TokenExpired(error.expiredAt.getTime())`, then
the `JsonWebTokenError` BASE class `→ InvalidToken` — which a
`NotBeforeError` also instantiates, so the following
`NotBeforeError → TokenExpired(error.date.getTime())` branch is dead
code — and anything else is rethrown. -/
def catchVerifyError (e : JwtVerifyError) : GuardError :=
  if isJwtTokenExpiredError e then .tokenExpired e.expiredAtTime
  else if isJsonWebTokenError e then .invalidToken
  else if isNotBeforeError e then .tokenExpired e.dateTime
  else .propagated e.errMsg

/-- `roles.includes(user.role)` where `roles` is a string array: only a
string role value can be a member. -/
def roleIncluded (roles : List String) (role : Value) : Bool :=
  match role with
  | .vStr s => roles.contains s
  | _ => false

/-- Steps shared by the first `protect` variant and `socketProtect`
after token extraction: verify and map failures, require a truthy
subject id, coerce it, load the user via `_getOne('users', ...)`, fail
`UserNoLongerExists` when `currentUser.data` is null, attach the user
document, and authorize against the role list (wildcard `*` allows
any). -/
def guardAfterToken (roles : List String) (verify : String → VerifyOutcome)
    (dbv : Db) (resource : String) (now : Int) (token : String) : GuardResult :=
  match verify token with
  | .err e => ⟨.error (catchVerifyError e), none⟩
  | .ok decoded =>
    match decoded with
    | none => ⟨.error .invalidToken, none⟩
    | some payload =>
      if !payload.id.truthy then ⟨.error .invalidToken, none⟩
      else
        match idCoerce payload.id with
        | .error (.invalidId v) => ⟨.error (.invalidId v), none⟩
        | .error (.documentNotExist _) =>
            ⟨.error (.propagated "DocumentNotExist"), none⟩
        | .ok w =>
          let fetched := _getOne "users" dbv
            (some { filter := some [("_id", w)], lookup := none, returnedMessage := none }) now
          match fetched.1 with
          | .error (.invalidId v) => ⟨.error (.invalidId v), none⟩
          | .error (.documentNotExist _) =>
              ⟨.error (.propagated "DocumentNotExist"), none⟩
          | .ok env =>
            match env.data with
            | none => ⟨.error (.userNoLongerExists payload.id), none⟩
            | some u =>
              let slot := some (AttachedUser.doc u)
              if !(roles.contains "*") && !(roleIncluded roles (getValueD u "role")) then
                ⟨.error (.permissionDenied resource), slot⟩
              else ⟨.ok (), slot⟩

/-- The first `protect` variant (`src/guard/functions/protect.ts`,
lines 34–89): database presence check, HTTP token extraction, then the
shared pipeline; the denied resource is `req.url`. -/
def protect (roles : List String) (verify : String → VerifyOutcome)
    (r : ReqModel) (dbv : Option Db) (now : Int) : GuardResult :=
  match dbv with
  | none => ⟨.error (.development "Please assign a database to the request"), none⟩
  | some dbv =>
    match extractTokenHttp r with
    | none => ⟨.error .notLoggedIn, none⟩
    | some token => guardAfterToken roles verify dbv r.url now token

/-- `socketProtect` (same file, lines 91–147): handshake token
extraction, then the shared pipeline; the denied resource is the fixed
string `socket io`. -/
def socketProtect (roles : List String) (verify : String → VerifyOutcome)
    (s : SocketModel) (dbv : Option Db) (now : Int) : GuardResult :=
  match dbv with
  | none => ⟨.error (.development "Please assign a database to the request"), none⟩
  | some dbv =>
    match extractTokenSocket s with
    | none => ⟨.error .notLoggedIn, none⟩
    | some token => guardAfterToken roles verify dbv "socket io" now token

/-- The second `protect` variant (`protect.ts` second file, lines
192–252), embedded separately because its user-existence step differs
from the first variant: it tests `if (!currentUser)` on the `_getOne`
ENVELOPE (always a truthy object) instead of `currentUser.data`, so it
never raises `UserNoLongerExists` and assigns the envelope itself to
`req.user`; the envelope has no `role` field. -/
def protectV2 (roles : List String) (verify : String → VerifyOutcome)
    (r : ReqModel) (dbv : Option Db) (now : Int) : GuardResult :=
  match dbv with
  | none => ⟨.error (.development "Please assign a database to the request"), none⟩
  | some dbv =>
    match extractTokenHttp r with
    | none => ⟨.error .notLoggedIn, none⟩
    | some token =>
      match verify token with
      | .err e => ⟨.error (catchVerifyError e), none⟩
      | .ok decoded =>
        match decoded with
        | none => ⟨.error .invalidToken, none⟩
        | some payload =>
          if !payload.id.truthy then ⟨.error .invalidToken, none⟩
          else
            match idCoerce payload.id with
            | .error (.invalidId v) => ⟨.error (.invalidId v), none⟩
            | .error (.documentNotExist _) =>
                ⟨.error (.propagated "DocumentNotExist"), none⟩
            | .ok w =>
              let fetched := _getOne "users" dbv
                (some { filter := some [("_id", w)], lookup := none,
                        returnedMessage := none }) now
              match fetched.1 with
              | .error (.invalidId v) => ⟨.error (.invalidId v), none⟩
              | .error (.documentNotExist _) =>
                  ⟨.error (.propagated "DocumentNotExist"), none⟩
              | .ok env =>
                let slot := some (AttachedUser.envelope env)
                if !(roles.contains "*") && !(roleIncluded roles .vNull) then
                  ⟨.error (.permissionDenied r.url), slot⟩
                else ⟨.ok (), slot⟩

/-! ## Helper lemmas -/

/-- `getField` on a cons: the head answers when its key matches. -/
theorem getField_cons (q : String × Value) (rest : Doc) (k : String) :
    getField (q :: rest) k = if q.1 == k then some q.2 else getField rest k := by
  rw [getField, List.find?_cons]
  cases hq : (q.1 == k) with
  | true => simp [hq]
  | false => simp [hq, getField]

/-- Overwriting the `k`-keyed entries makes `k` read back the new value,
provided some entry carried key `k`. -/
theorem getField_overwrite_self (d : Doc) (k : String) (v : Value)
    (h : d.any (fun p => p.1 == k) = true) :
    getField (d.map (fun p => if p.1 == k then (k, v) else p)) k = some v := by
  induction d with
  | nil => simp at h
  | cons p d ih =>
    by_cases hpk : (p.1 == k) = true
    · rw [List.map_cons, if_pos hpk, getField_cons]
      simp
    · have hpk' : (p.1 == k) = false := by simpa using hpk
      have hd : d.any (fun p => p.1 == k) = true := by
        simpa [List.any_cons, hpk'] using h
      rw [List.map_cons, if_neg hpk, getField_cons, if_neg hpk]
      exact ih hd

/-- Overwriting the `k`-keyed entries does not change any other key. -/
theorem getField_overwrite_ne (d : Doc) (k k' : String) (v : Value) (h : k' ≠ k) :
    getField (d.map (fun p => if p.1 == k then (k, v) else p)) k' = getField d k' := by
  induction d with
  | nil => rfl
  | cons p d ih =>
    rw [List.map_cons, getField_cons, getField_cons (k := k')]
    by_cases hpk : (p.1 == k) = true
    · have hp1 : p.1 = k := by simpa using hpk
      have h1 : ((k, v).1 == k') = false := by simp [Ne.symm h]
      have h2 : (p.1 == k') = false := by simp [hp1, Ne.symm h]
      rw [if_pos hpk, if_neg (by simp [h1]), if_neg (by simp [h2])]
      exact ih
    · rw [if_neg hpk]
      by_cases hq : (p.1 == k') = true
      · rw [if_pos hq, if_pos hq]
      · rw [if_neg hq, if_neg hq]
        exact ih

/-- Appending a `k`-keyed entry makes `k` read back its value, provided no
earlier entry carried key `k`. -/
theorem getField_append_self (d : Doc) (k : String) (v : Value)
    (h : d.any (fun p => p.1 == k) = false) :
    getField (d ++ [(k, v)]) k = some v := by
  induction d with
  | nil => simp [getField]
  | cons p d ih =>
    have hpk : (p.1 == k) = false := by
      by_contra hc
      have : (p.1 == k) = true := by simpa using hc
      simp [List.any_cons, this] at h
    have hd : d.any (fun p => p.1 == k) = false := by
      simpa [List.any_cons, hpk] using h
    rw [List.cons_append, getField_cons, if_neg (by simp [hpk])]
    exact ih hd

/-- Appending a `k`-keyed entry does not change any other key. -/
theorem getField_append_ne (d : Doc) (k k' : String) (v : Value) (h : k' ≠ k) :
    getField (d ++ [(k, v)]) k' = getField d k' := by
  induction d with
  | nil => simp [getField, Ne.symm h]
  | cons p d ih =>
    rw [List.cons_append, getField_cons, getField_cons]
    by_cases hq : (p.1 == k') = true
    · rw [if_pos hq, if_pos hq]
    · rw [if_neg hq, if_neg hq]
      exact ih

/-- Writing field `k` makes it readable with exactly the written value. -/
theorem getField_setField_self (d : Doc) (k : String) (v : Value) :
    getField (setField d k v) k = some v := by
  cases hb : d.any (fun p => p.1 == k) with
  | true => simpa [setField, hb] using getField_overwrite_self d k v hb
  | false => simpa [setField, hb] using getField_append_self d k v hb

/-- Writing field `k` leaves every other field unchanged. -/
theorem getField_setField_ne (d : Doc) (k k' : String) (v : Value) (h : k' ≠ k) :
    getField (setField d k v) k' = getField d k' := by
  cases hb : d.any (fun p => p.1 == k) with
  | true => simpa [setField, hb] using getField_overwrite_ne d k k' v h
  | false => simpa [setField, hb] using getField_append_ne d k k' v h

/-- Insertion grows the list by exactly one document. -/
theorem length_insertDoc (le : Doc → Doc → Bool) (d : Doc) (l : List Doc) :
    (insertDoc le d l).length = l.length + 1 := by
  induction l with
  | nil => rfl
  | cons e rest ih =>
    cases hle : le d e with
    | true => simp [insertDoc, hle]
    | false => simp [insertDoc, hle, ih]

/-- The sort stage preserves the number of documents. -/
theorem length_sortDocs (le : Doc → Doc → Bool) (l : List Doc) :
    (sortDocs le l).length = l.length := by
  induction l with
  | nil => rfl
  | cons d rest ih => simp [sortDocs, length_insertDoc, ih]

/-- Ceiling division dominates: `c ≤ ⌈c / l⌉ * l` for positive `l`. -/
theorem le_mathCeilDiv_mul (c l : Nat) (hl : 1 ≤ l) : c ≤ mathCeilDiv c l * l := by
  rcases Nat.eq_zero_or_pos c with hc | hc
  · simp [hc]
  · have hstep : c + l - 1 = (c - 1) + l := by omega
    have hdiv : ((c - 1) + l) / l = (c - 1) / l + 1 := Nat.add_div_right _ hl
    have hmod := Nat.div_add_mod (c - 1) l
    have hlt := Nat.mod_lt (c - 1) hl
    rw [mathCeilDiv, hstep, hdiv, Nat.add_mul, Nat.one_mul, Nat.mul_comm]
    omega

/-- A delete that touches nothing returns the collection and count 0. -/
theorem deleteFirst_of_no_match (p : Doc → Bool) (l : List Doc)
    (h : ∀ x ∈ l, p x = false) : deleteFirst p l = (l, 0) := by
  induction l with
  | nil => rfl
  | cons d rest ih =>
    have hd : p d = false := h d (List.mem_cons_self d rest)
    have hrest := ih (fun x hx => h x (List.mem_cons_of_mem d hx))
    simp [deleteFirst, hd, hrest]

/-- The deleted count plus the remaining matches equals the original
match count. -/
theorem deleteFirst_countP (p : Doc → Bool) (l : List Doc) :
    (deleteFirst p l).1.countP p + (deleteFirst p l).2 = l.countP p := by
  induction l with
  | nil => rfl
  | cons d rest ih =>
    cases hd : p d with
    | true => simp [deleteFirst, hd, List.countP_cons, ih]
    | false =>
      simp only [deleteFirst, hd]
      simp [List.countP_cons, hd, ← ih]

/-- A delete removes at most one document. -/
theorem deleteFirst_snd_le_one (p : Doc → Bool) (l : List Doc) :
    (deleteFirst p l).2 ≤ 1 := by
  induction l with
  | nil => simp [deleteFirst]
  | cons d rest ih =>
    cases hd : p d with
    | true => simp [deleteFirst, hd]
    | false => simpa [deleteFirst, hd] using ih

/-- Rewriting an existing collection's contents makes them readable. -/
theorem dbColl_dbSet (dbv : Db) (t : String) (docs : List Doc)
    (h : (dbv.find? (fun c => c.1 == t)).isSome = true) :
    dbColl (dbSet dbv t docs) t = docs := by
  induction dbv with
  | nil => simp [List.find?] at h
  | cons c rest ih =>
    cases hc : (c.1 == t) with
    | true =>
      simp only [dbSet, List.map_cons, hc, if_true]
      simp [dbColl, List.find?_cons, hc]
    | false =>
      have h' : (rest.find? (fun c => c.1 == t)).isSome = true := by
        rw [List.find?_cons_of_neg _ (by simp [hc])] at h
        exact h
      simp only [dbSet, List.map_cons, hc, if_false]
      simpa [dbColl, List.find?_cons, hc, dbSet] using ih h'

/-- A non-empty collection read implies the collection entry exists. -/
theorem find?_isSome_of_dbColl_ne_nil (dbv : Db) (t : String)
    (h : dbColl dbv t ≠ []) : (dbv.find? (fun c => c.1 == t)).isSome = true := by
  cases hf : dbv.find? (fun c => c.1 == t) with
  | some c => rfl
  | none =>
    exfalso
    apply h
    simp [dbColl, hf]

/-- A found document satisfies the filter it was found by. -/
theorem dbFindOne_matches (dbv : Db) (table : String) (f : Filter) (d : Doc)
    (h : dbFindOne dbv table f = some d) : matchesFilter d f = true := by
  have h' : (dbColl dbv table).find? (fun d => matchesFilter d f) = some d := h
  have h2 := List.find?_some h'
  exact h2

/-- An empty `find?` means no document matches. -/
theorem dbFindOne_eq_none_iff (dbv : Db) (table : String) (f : Filter) :
    dbFindOne dbv table f = none ↔ ∀ d ∈ dbColl dbv table, matchesFilter d f = false := by
  constructor
  · intro h d hd
    have := List.find?_eq_none.mp h d hd
    simpa using this
  · intro h
    exact List.find?_eq_none.mpr (fun d hd => by simp [h d hd])

/-- A coercion-prologue failure is always an invalid-identifier error. -/
theorem coerceFilter_error_invalidId (f : Option Filter) (e : DbError)
    (h : coerceFilter f = .error e) : ∃ v, e = .invalidId v := by
  cases f with
  | none => simp [coerceFilter] at h
  | some flt =>
    cases hg : getField flt "_id" with
    | none => simp [coerceFilter, hg] at h
    | some v =>
      cases ht : v.truthy with
      | false => simp [coerceFilter, hg, ht] at h
      | true =>
        cases hv : isValidObjectId v with
        | true => simp [coerceFilter, hg, ht, idCoerce, hv] at h
        | false =>
          refine ⟨v, ?_⟩
          simp [coerceFilter, hg, ht, idCoerce, hv] at h
          exact h.symm

/-! ## Claim theorems -/

/-- C8: every value accepted by the store's validity predicate is coerced
successfully and idempotently — coercing twice yields equal values and an
already-native identifier comes back as an equal copy — while every
rejected value fails with `InvalidIdError` carrying the raw value. -/
theorem claim_C8_idCoerce_idempotent :
    (∀ v : Value, isValidObjectId v = true →
      ∃ w, idCoerce v = .ok w ∧ idCoerce w = .ok w ∧ isValidObjectId w = true) ∧
    (∀ h : String, idCoerce (.vId h) = .ok (.vId h)) ∧
    (∀ v : Value, isValidObjectId v = false → idCoerce v = .error (.invalidId v)) := by
  refine ⟨?_, ?_, ?_⟩
  · intro v hv
    exact ⟨.vId (mkObjectId v), by simp [idCoerce, hv],
      by simp [idCoerce, isValidObjectId, mkObjectId],
      by simp [isValidObjectId]⟩
  · intro h
    simp [idCoerce, isValidObjectId, mkObjectId]
  · intro v hv
    simp [idCoerce, hv]

/-- C8 witness: the idempotence and rejection facts evaluated at a valid
24-hex identifier, a native identifier, and a malformed one. -/
theorem claim_C8_witness :
    (∃ w, idCoerce (.vStr "507f1f77bcf86cd799439011") = .ok w ∧
          idCoerce w = .ok w ∧ isValidObjectId w = true) ∧
    idCoerce (.vId "507f1f77bcf86cd799439011") = .ok (.vId "507f1f77bcf86cd799439011") ∧
    idCoerce (.vStr "nope") = .error (.invalidId (.vStr "nope")) :=
  ⟨claim_C8_idCoerce_idempotent.1 _ (by decide),
   claim_C8_idCoerce_idempotent.2.1 "507f1f77bcf86cd799439011",
   claim_C8_idCoerce_idempotent.2.2 _ (by decide)⟩

/-- C9 counterexample: with the secret and lifetime environment entries
unset, the guard module's verification service is constructed over the
fixed well-known default secret and default lifetime — the claim that no
built-in default is silently substituted is false of the code. -/
theorem claim_C9_counterexample :
    guardSecret none = "change this secret" ∧
    guardJwtService none none =
      { secret := "change this secret", tokenExpirationInSeconds := 3600 } :=
  ⟨rfl, rfl⟩

/-- C9 amended: an externally supplied secret and lifetime are used as
given, but when unset the guard silently falls back to the fixed default
secret `change this secret` and default lifetime 3600 seconds, and token
verification proceeds against that default configuration. -/
theorem claim_C9_default_secret_fallback (s : String) (n : Int) :
    guardSecret (some s) = s ∧
    guardTokenExpiration (some n) = n ∧
    (guardJwtService none none).secret = "change this secret" ∧
    (guardJwtService none none).tokenExpirationInSeconds = 60 * 60 :=
  ⟨rfl, rfl, rfl, rfl⟩

/-- C2: a FetchOne whose (coerced) filter matches no document returns a
success envelope with null data, and no FetchOne outcome is ever a
`DocumentNotExistError`, under any options. -/
theorem claim_C2_fetchOne_missing_is_null :
    (∀ (table : String) (dbv : Db) (options : Option GetOneOptions) (now : Int)
        (f' : Option Filter),
        coerceFilter (options.bind (fun o => o.filter)) = .ok f' →
        dbFindOne dbv table (f'.getD []) = none →
        ∃ env opts', _getOne table dbv options now = (.ok env, opts') ∧
          env.status = "success" ∧ env.data = none) ∧
    (∀ (table : String) (dbv : Db) (options : Option GetOneOptions) (now : Int)
        (f : Option Filter),
        (_getOne table dbv options now).1 ≠ .error (.documentNotExist f)) := by
  constructor
  · intro table dbv options now f' hc hnone
    refine ⟨{ status := "success", data := none, table := table,
              message := (options.map (fun o => { o with filter := f' })).bind
                (fun o => o.returnedMessage),
              response_created_at := now },
            options.map (fun o => { o with filter := f' }), ?_, rfl, rfl⟩
    simp only [_getOne, hc, hnone]
  · intro table dbv options now f
    cases hc : coerceFilter (options.bind (fun o => o.filter)) with
    | error e =>
      obtain ⟨v, hv⟩ := coerceFilter_error_invalidId _ _ hc
      simp [_getOne, hc, hv]
    | ok f' =>
      simp [_getOne, hc]

/-- C2 witness: a concrete FetchOne against a collection whose only
document does not match the filter yields a success envelope with null
data, and its outcome is not a document-not-found error. -/
theorem claim_C2_witness :
    (∃ env opts',
      _getOne "users" [("users", [[("a", Value.vInt 1)]])]
        (some { filter := some [("b", Value.vInt 2)], lookup := none,
                returnedMessage := none }) 7 = (.ok env, opts') ∧
      env.status = "success" ∧ env.data = none) ∧
    (_getOne "users" [("users", [[("a", Value.vInt 1)]])]
        (some { filter := some [("b", Value.vInt 2)], lookup := none,
                returnedMessage := none }) 7).1 ≠
      .error (.documentNotExist (some [("b", Value.vInt 2)])) :=
  ⟨claim_C2_fetchOne_missing_is_null.1 _ _ _ _ _ (by rfl) (by rfl),
   claim_C2_fetchOne_missing_is_null.2 _ _ _ _ _⟩

/-- An `_id`-keyed native-identifier filter passes the coercion prologue
unchanged (the native value is re-coerced to an equal copy). -/
theorem coerceFilter_id_vId (h : String) :
    coerceFilter (some [(("_id" : String), Value.vId h)]) =
      .ok (some [(("_id" : String), Value.vId h)]) := by
  simp [coerceFilter, getField, List.find?, Value.truthy, idCoerce,
    isValidObjectId, mkObjectId, setField]

/-- C10: whenever the filter carries a present, truthy, coercible `_id`,
each of the four engine operations hands back the caller's options object
with exactly `filter._id` replaced by the coerced native identifier; the
written field reads back the coerced value and every other filter field
is untouched. -/
theorem claim_C10_filter_id_writeback (flt : Filter) (v w : Value)
    (hget : getField flt "_id" = some v) (htr : v.truthy = true)
    (hco : idCoerce v = .ok w) :
    (∀ (table : String) (dbv : Db) (o : GetAllOptions) (now : Int),
      o.filter = some flt →
      (_getAll table dbv (some o) now).2 =
        some { o with filter := some (setField flt "_id" w) }) ∧
    (∀ (table : String) (dbv : Db) (o : GetOneOptions) (now : Int),
      o.filter = some flt →
      (_getOne table dbv (some o) now).2 =
        some { o with filter := some (setField flt "_id" w) }) ∧
    (∀ (table : String) (dbv : Db) (o : DeleteOneOptions) (now : Int),
      o.filter = some flt →
      (_deleteOne table dbv (some o) now).2.2 =
        some { o with filter := some (setField flt "_id" w) }) ∧
    (∀ (table : String) (dbv : Db) (u : UpdateObject) (o : UpdateOneOptions) (now : Int),
      o.filter = some flt →
      (_updateOne table dbv u o now).2.2 =
        { o with filter := some (setField flt "_id" w) }) ∧
    getField (setField flt "_id" w) "_id" = some w ∧
    (∀ k, k ≠ "_id" → getField (setField flt "_id" w) k = getField flt k) := by
  have hc : coerceFilter (some flt) = .ok (some (setField flt "_id" w)) := by
    simp [coerceFilter, hget, htr, hco]
  refine ⟨?_, ?_, ?_, ?_, getField_setField_self flt "_id" w,
    fun k hk => getField_setField_ne flt "_id" k w hk⟩
  · intro table dbv o now ho
    simp only [_getAll, Option.some_bind, ho, hc]
    rfl
  · intro table dbv o now ho
    simp only [_getOne, Option.some_bind, ho, hc]
    rfl
  · intro table dbv o now ho
    simp only [_deleteOne, Option.some_bind, ho, hc]
    split <;> rfl
  · intro table dbv u o now ho
    simp only [_updateOne, ho, hc]
    split <;> rfl

/-- C10 witness: the write-back evaluated on FetchOne with a concrete
mixed-case raw `_id` and a second filter field, which survives
unchanged. -/
theorem claim_C10_witness :
    (_getOne "t" []
        (some { filter := some [(("_id" : String), Value.vId "507f1f77bcf86cd799439011"),
                                ("x", Value.vInt 5)],
                lookup := none, returnedMessage := none }) 0).2 =
      some { filter := some (setField
                [(("_id" : String), Value.vId "507f1f77bcf86cd799439011"),
                 ("x", Value.vInt 5)] "_id" (Value.vId "507f1f77bcf86cd799439011")),
             lookup := none, returnedMessage := none } ∧
    getField (setField
        [(("_id" : String), Value.vId "507f1f77bcf86cd799439011"),
         ("x", Value.vInt 5)] "_id" (Value.vId "507f1f77bcf86cd799439011")) "x" =
      getField [(("_id" : String), Value.vId "507f1f77bcf86cd799439011"),
                ("x", Value.vInt 5)] "x" :=
  ⟨(claim_C10_filter_id_writeback _ _ _ (by rfl) (by rfl) (by rfl)).2.1 "t" [] _ 0 rfl,
   (claim_C10_filter_id_writeback _ _ _ (by rfl) (by rfl)
      (by rfl)).2.2.2.2.2 "x" (by decide)⟩

/-- C3: a Delete or Update whose (coerced) filter matches nothing fails
with `DocumentNotExistError` carrying the filter used, and a repeated
Delete of an at-most-once-matching `_id` filter fails the second time
rather than succeeding silently. -/
theorem claim_C3_update_delete_missing_error :
    (∀ (table : String) (dbv : Db) (options : Option DeleteOneOptions) (now : Int)
        (f' : Option Filter),
        coerceFilter (options.bind (fun o => o.filter)) = .ok f' →
        (∀ d ∈ dbColl dbv table, matchesFilter d (f'.getD []) = false) →
        (_deleteOne table dbv options now).1 = .error (.documentNotExist f')) ∧
    (∀ (table : String) (dbv : Db) (u : UpdateObject) (options : UpdateOneOptions) (now : Int)
        (f' : Option Filter),
        coerceFilter options.filter = .ok f' →
        dbFindOne dbv table (f'.getD []) = none →
        (_updateOne table dbv u options now).1 = .error (.documentNotExist f')) ∧
    (∀ (table : String) (dbv : Db) (h : String) (now now2 : Int)
        (res : DeleteOneSuccessResponse) (db' : Db) (opts' : Option DeleteOneOptions),
        (dbColl dbv table).countP
          (fun d => matchesFilter d [(("_id" : String), Value.vId h)]) ≤ 1 →
        _deleteOne table dbv
          (some { filter := some [(("_id" : String), Value.vId h)],
                  returnedMessage := none }) now = (.ok res, db', opts') →
        (_deleteOne table db'
          (some { filter := some [(("_id" : String), Value.vId h)],
                  returnedMessage := none }) now2).1 =
          .error (.documentNotExist (some [(("_id" : String), Value.vId h)]))) := by
  have hdel :
      ∀ (table : String) (dbv : Db) (options : Option DeleteOneOptions) (now : Int)
        (f' : Option Filter),
        coerceFilter (options.bind (fun o => o.filter)) = .ok f' →
        (∀ d ∈ dbColl dbv table, matchesFilter d (f'.getD []) = false) →
        (_deleteOne table dbv options now).1 = .error (.documentNotExist f') := by
    intro table dbv options now f' hc hno
    have hdf := deleteFirst_of_no_match
      (fun d => matchesFilter d (f'.getD [])) (dbColl dbv table) hno
    simp only [_deleteOne, hc, hdf]
    cases options with
    | none =>
      have : f' = none := by
        simpa [coerceFilter, eq_comm] using hc
      simp [this]
    | some o => simp
  refine ⟨hdel, ?_, ?_⟩
  · intro table dbv u options now f' hc hnone
    simp only [_updateOne, hc, hnone]
  · intro table dbv h now now2 res db' opts' hcount hfirst
    have hc := coerceFilter_id_vId h
    simp only [_deleteOne, Option.some_bind, hc] at hfirst
    rcases hdf : deleteFirst
        (fun d => matchesFilter d ((some [(("_id" : String), Value.vId h)]).getD []))
        (dbColl dbv table) with ⟨coll', cnt⟩
    rw [hdf] at hfirst
    by_cases hcnt : cnt = 0
    · rw [if_pos hcnt] at hfirst
      exact absurd (congrArg Prod.fst hfirst) (by simp)
    · rw [if_neg hcnt] at hfirst
      have hdb' : db' = dbSet dbv table coll' := by
        have := congrArg (fun q => q.2.1) hfirst
        simpa using this.symm
      have hcnt1 : cnt = 1 := by
        have := deleteFirst_snd_le_one
          (fun d => matchesFilter d ((some [(("_id" : String), Value.vId h)]).getD []))
          (dbColl dbv table)
        rw [hdf] at this
        omega
      have hcp := deleteFirst_countP
        (fun d => matchesFilter d ((some [(("_id" : String), Value.vId h)]).getD []))
        (dbColl dbv table)
      rw [hdf] at hcp
      have hcoll0 : coll'.countP
          (fun d => matchesFilter d [(("_id" : String), Value.vId h)]) = 0 := by
        simp only [Option.getD_some] at hcp
        omega
      have hnil : dbColl dbv table ≠ [] := by
        intro hn
        rw [hn] at hdf
        simp [deleteFirst] at hdf
        omega
      have hsome := find?_isSome_of_dbColl_ne_nil dbv table hnil
      have hcoll' : dbColl db' table = coll' := by
        rw [hdb']
        exact dbColl_dbSet dbv table coll' hsome
      apply hdel table db'
        (some { filter := some [(("_id" : String), Value.vId h)],
                returnedMessage := none }) now2
        (some [(("_id" : String), Value.vId h)]) (by simpa using hc)
      intro d hd
      rw [hcoll'] at hd
      have := List.countP_eq_zero.mp hcoll0 d hd
      simpa using this

/-- C3 witness: a concrete Delete and a concrete Update against a
non-matching filter both fail with the filter carried, and deleting the
only `_id`-matching document twice fails the second time. -/
theorem claim_C3_witness :
    (_deleteOne "users" [("users", [[("a", Value.vInt 1)]])]
        (some { filter := some [("b", Value.vInt 2)], returnedMessage := none }) 0).1 =
      .error (.documentNotExist (some [("b", Value.vInt 2)])) ∧
    (_updateOne "users" [("users", [[("a", Value.vInt 1)]])] (fun d => d)
        { filter := some [("b", Value.vInt 2)], returnNew := none,
          returnedMessage := none } 0).1 =
      .error (.documentNotExist (some [("b", Value.vInt 2)])) ∧
    (_deleteOne "users" [("users", [])]
        (some { filter := some [(("_id" : String), Value.vId "aa")],
                returnedMessage := none }) 1).1 =
      .error (.documentNotExist (some [(("_id" : String), Value.vId "aa")])) :=
  ⟨claim_C3_update_delete_missing_error.1 "users" [("users", [[("a", Value.vInt 1)]])]
      (some { filter := some [("b", Value.vInt 2)], returnedMessage := none }) 0
      (some [("b", Value.vInt 2)]) rfl (by decide),
   claim_C3_update_delete_missing_error.2.1 "users" [("users", [[("a", Value.vInt 1)]])]
      (fun d => d)
      { filter := some [("b", Value.vInt 2)], returnNew := none, returnedMessage := none } 0
      (some [("b", Value.vInt 2)]) rfl (by rfl),
   claim_C3_update_delete_missing_error.2.2 "users"
      [("users", [[(("_id" : String), Value.vId "aa")]])] "aa" 0 1
      { status := "success", table := "users", message := none, response_created_at := 0 }
      [("users", [])]
      (some { filter := some [(("_id" : String), Value.vId "aa")],
              returnedMessage := none })
      (by decide) rfl⟩

/-- The guard's user load: FetchOne on `users` by a native `_id` succeeds
with the first matching user document as data. -/
theorem _getOne_users_by_id (dbv : Db) (h : String) (now : Int) :
    (_getOne "users" dbv
      (some { filter := some [(("_id" : String), Value.vId h)],
              lookup := none, returnedMessage := none }) now).1 =
    .ok { status := "success",
          data := dbFindOne dbv "users" [(("_id" : String), Value.vId h)],
          table := "users", message := none, response_created_at := now } := by
  simp only [_getOne, Option.some_bind, coerceFilter_id_vId, Option.map_some',
    Option.getD_some]
  cases hd : dbFindOne dbv "users" [(("_id" : String), Value.vId h)] <;> simp [hd]

/-- C4 (code bug. The jwt module — the second staged part of
`src/email/index.ts` — re-exports the `jsonwebtoken` library's error
classes, in which `NotBeforeError` is a subclass of `JsonWebTokenError`;
the catch chain in both guard transports tests the base class BEFORE
`NotBeforeError`, so its `TokenExpired(error.date.getTime())` branch is
dead code and a not-yet-valid token is mapped to `InvalidToken`,
contradicting the claim, the spec, and the guard's own doc comment
`@throws TokenExpiredError - If the token has expired or is not yet
valid`.  The other three kinds are mapped as claimed): evaluation of
both transports at a not-yet-valid token, alongside the three live
branches. -/
theorem claim_C4_notBefore_branch_dead_eval :
    (protect ["*"] (fun _ => .err (.notBefore 99))
      { authorization := none, cookiesJwt := some "tok", url := "/u" }
      (some []) 0).outcome = .error .invalidToken ∧
    (socketProtect ["*"] (fun _ => .err (.notBefore 99))
      { authToken := none, headersAuthorization := some "tok" }
      (some []) 0).outcome = .error .invalidToken ∧
    (protect ["*"] (fun _ => .err (.tokenExpired 42))
      { authorization := none, cookiesJwt := some "tok", url := "/u" }
      (some []) 0).outcome = .error (.tokenExpired 42) ∧
    (socketProtect ["*"] (fun _ => .err (.tokenExpired 42))
      { authToken := none, headersAuthorization := some "tok" }
      (some []) 0).outcome = .error (.tokenExpired 42) ∧
    (protect ["*"] (fun _ => .err .jsonWebToken)
      { authorization := none, cookiesJwt := some "tok", url := "/u" }
      (some []) 0).outcome = .error .invalidToken ∧
    (socketProtect ["*"] (fun _ => .err .jsonWebToken)
      { authToken := none, headersAuthorization := some "tok" }
      (some []) 0).outcome = .error .invalidToken ∧
    (protect ["*"] (fun _ => .err (.other "boom"))
      { authorization := none, cookiesJwt := some "tok", url := "/u" }
      (some []) 0).outcome = .error (.propagated "boom") ∧
    (socketProtect ["*"] (fun _ => .err (.other "boom"))
      { authToken := none, headersAuthorization := some "tok" }
      (some []) 0).outcome = .error (.propagated "boom") :=
  ⟨rfl, rfl, rfl, rfl, rfl, rfl, rfl, rfl⟩

/-- C5: once the guard reaches authorization with a loaded user, the
wildcard role list always succeeds and attaches the user, a role list not
containing the user's role fails with `PermissionDenied` carrying the
attempted resource (`req.url` / the socket resource), and a role list
containing it succeeds and attaches the user — in both transports. -/
theorem claim_C5_role_authorization
    (roles : List String) (verify : String → VerifyOutcome)
    (r : ReqModel) (s : SocketModel) (dbv : Db) (now : Int) (t : String)
    (pl : Payload) (hw : String) (u : Doc)
    (hr : extractTokenHttp r = some t)
    (hs : extractTokenSocket s = some t)
    (hv : verify t = .ok (some pl))
    (htr : pl.id.truthy = true)
    (hco : idCoerce pl.id = .ok (.vId hw))
    (hu : dbFindOne dbv "users" [(("_id" : String), Value.vId hw)] = some u) :
    (roles.contains "*" = true →
      protect roles verify r (some dbv) now = ⟨.ok (), some (.doc u)⟩ ∧
      socketProtect roles verify s (some dbv) now = ⟨.ok (), some (.doc u)⟩) ∧
    (roles.contains "*" = false →
      roleIncluded roles (getValueD u "role") = false →
      protect roles verify r (some dbv) now =
        ⟨.error (.permissionDenied r.url), some (.doc u)⟩ ∧
      socketProtect roles verify s (some dbv) now =
        ⟨.error (.permissionDenied "socket io"), some (.doc u)⟩) ∧
    (roleIncluded roles (getValueD u "role") = true →
      protect roles verify r (some dbv) now = ⟨.ok (), some (.doc u)⟩ ∧
      socketProtect roles verify s (some dbv) now = ⟨.ok (), some (.doc u)⟩) := by
  have hg : ∀ resource : String,
      guardAfterToken roles verify dbv resource now t =
        if !(roles.contains "*") && !(roleIncluded roles (getValueD u "role")) then
          ⟨.error (.permissionDenied resource), some (.doc u)⟩
        else ⟨.ok (), some (.doc u)⟩ := by
    intro resource
    simp only [guardAfterToken, hv, htr, Bool.not_true, Bool.false_eq_true,
      if_false, hco, _getOne_users_by_id, hu]
  refine ⟨fun hstar => ?_, fun hstar hrole => ?_, fun hrole => ?_⟩
  · have hcond : (!(roles.contains "*") && !(roleIncluded roles (getValueD u "role"))) = false := by
      rw [hstar]
      rfl
    exact ⟨by simp only [protect, hr]; rw [hg, hcond]; exact if_neg (by simp),
           by simp only [socketProtect, hs]; rw [hg, hcond]; exact if_neg (by simp)⟩
  · have hcond : (!(roles.contains "*") && !(roleIncluded roles (getValueD u "role"))) = true := by
      rw [hstar, hrole]
      rfl
    exact ⟨by simp only [protect, hr]; rw [hg, hcond]; exact if_pos rfl,
           by simp only [socketProtect, hs]; rw [hg, hcond]; exact if_pos rfl⟩
  · have hcond : (!(roles.contains "*") && !(roleIncluded roles (getValueD u "role"))) = false := by
      cases hstar2 : roles.contains "*" with
      | true => rw [hrole]; rfl
      | false => rw [hrole]; rfl
    exact ⟨by simp only [protect, hr]; rw [hg, hcond]; exact if_neg (by simp),
           by simp only [socketProtect, hs]; rw [hg, hcond]; exact if_neg (by simp)⟩

/-- C5 witness: a member-role user is denied under `roles=["admin"]`
(resource carried) and succeeds with attachment under the wildcard. -/
theorem claim_C5_witness :
    (protect ["*"] (fun _ => .ok (some { id := Value.vId "507f1f77bcf86cd799439011" }))
      { authorization := none, cookiesJwt := some "tok", url := "/users" }
      (some [("users", [[(("_id" : String), Value.vId "507f1f77bcf86cd799439011"),
                         ("role", Value.vStr "member")]])]) 0) =
      ⟨.ok (), some (.doc [(("_id" : String), Value.vId "507f1f77bcf86cd799439011"),
                           ("role", Value.vStr "member")])⟩ ∧
    (protect ["admin"] (fun _ => .ok (some { id := Value.vId "507f1f77bcf86cd799439011" }))
      { authorization := none, cookiesJwt := some "tok", url := "/users" }
      (some [("users", [[(("_id" : String), Value.vId "507f1f77bcf86cd799439011"),
                         ("role", Value.vStr "member")]])]) 0) =
      ⟨.error (.permissionDenied "/users"),
       some (.doc [(("_id" : String), Value.vId "507f1f77bcf86cd799439011"),
                   ("role", Value.vStr "member")])⟩ :=
  ⟨((claim_C5_role_authorization ["*"]
      (fun _ => .ok (some { id := Value.vId "507f1f77bcf86cd799439011" }))
      { authorization := none, cookiesJwt := some "tok", url := "/users" }
      { authToken := none, headersAuthorization := some "tok" }
      [("users", [[(("_id" : String), Value.vId "507f1f77bcf86cd799439011"),
                   ("role", Value.vStr "member")]])] 0 "tok"
      { id := Value.vId "507f1f77bcf86cd799439011" } "507f1f77bcf86cd799439011"
      [(("_id" : String), Value.vId "507f1f77bcf86cd799439011"),
       ("role", Value.vStr "member")] rfl rfl rfl rfl rfl rfl).1 rfl).1,
   ((claim_C5_role_authorization ["admin"]
      (fun _ => .ok (some { id := Value.vId "507f1f77bcf86cd799439011" }))
      { authorization := none, cookiesJwt := some "tok", url := "/users" }
      { authToken := none, headersAuthorization := some "tok" }
      [("users", [[(("_id" : String), Value.vId "507f1f77bcf86cd799439011"),
                   ("role", Value.vStr "member")]])] 0 "tok"
      { id := Value.vId "507f1f77bcf86cd799439011" } "507f1f77bcf86cd799439011"
      [(("_id" : String), Value.vId "507f1f77bcf86cd799439011"),
       ("role", Value.vStr "member")] rfl rfl rfl rfl rfl rfl).2.1 rfl
      (by decide)).1⟩

/-- C6 (code bug. The first variant and `socketProtect` test
`currentUser.data`; the second `protect` variant tests the always-truthy
envelope, so with an unknown subject it does not raise
`UserNoLongerExists` — under the wildcard it succeeds and attaches the
envelope to the user slot, and under a restricted role list it raises
`PermissionDenied` instead): evaluation of the second variant at a token
whose subject matches no user document. -/
theorem claim_C6_second_variant_eval :
    protectV2 ["*"] (fun _ => .ok (some { id := Value.vId "507f1f77bcf86cd799439011" }))
      { authorization := none, cookiesJwt := some "tok", url := "/users/me" }
      (some [("users", [])]) 3 =
      { outcome := .ok (), userSlot := some (.envelope
          { status := "success", data := none, table := "users",
            message := none, response_created_at := 3 }) } ∧
    protectV2 ["admin"] (fun _ => .ok (some { id := Value.vId "507f1f77bcf86cd799439011" }))
      { authorization := none, cookiesJwt := some "tok", url := "/users/me" }
      (some [("users", [])]) 3 =
      { outcome := .error (.permissionDenied "/users/me"), userSlot := some (.envelope
          { status := "success", data := none, table := "users",
            message := none, response_created_at := 3 }) } :=
  ⟨rfl, rfl⟩

/-- C1: FetchMany with `page ≥ 1` and `limit ≥ 1` returns a success
envelope with at most `limit` documents, `currentPage = page`,
`totalDocs` counted with the same unpaginated filter,
`totalPages = ⌈totalDocs / limit⌉`, data drawn with skip offset
`(page - 1) * limit`, and an empty (still successful) data array whenever
the page exceeds `totalPages`. -/
theorem claim_C1_fetchMany_pagination
    (table : String) (dbv : Db) (o : GetAllOptions) (now : Int)
    (p l : Nat) (f' : Option Filter)
    (hp : o.page = some p) (hl : o.limit = some l)
    (hp1 : 1 ≤ p) (hl1 : 1 ≤ l)
    (hc : coerceFilter o.filter = .ok f') :
    ∃ env, _getAll table dbv (some o) now = (.ok env, some { o with filter := f' }) ∧
      env.status = "success" ∧
      env.data.length ≤ l ∧
      env.currentPage = p ∧
      env.limit = l ∧
      env.totalDocs = (dbFind dbv table (f'.getD [])).length ∧
      env.totalPages = env.totalDocs ⌈/⌉ l ∧
      (o.lookup = none →
        env.data = ((sortDocs (docLe (o.sort.getD []))
          (dbFind dbv table (f'.getD []))).drop ((p - 1) * l)).take l) ∧
      (∀ lk, o.lookup = some lk → lookupFieldsPresent lk = true →
        env.data = (((sortDocs (docLe (o.sort.getD []))
          (dbFind dbv table (f'.getD []))).drop ((p - 1) * l)).take l).map
            (lookupEnrich dbv lk)) ∧
      (env.totalPages < p → env.data = []) := by
  have hpn : jsOrNat (some p) 1 = p := by
    have h0 : jsOrNat (some p) 1 = if p = 0 then 1 else p := rfl
    rw [h0, if_neg (by omega)]
  have hln : jsOrNat (some l) 20 = l := by
    have h0 : jsOrNat (some l) 20 = if l = 0 then 20 else l := rfl
    rw [h0, if_neg (by omega)]
  refine ⟨{ status := "success",
            data := match o.lookup with
              | some lk =>
                if lookupFieldsPresent lk then
                  ((((sortDocs (docLe (o.sort.getD []))
                    (dbFind dbv table (f'.getD []))).drop ((p - 1) * l)).take l).map
                      (lookupEnrich dbv lk))
                else (((sortDocs (docLe (o.sort.getD []))
                  (dbFind dbv table (f'.getD []))).drop ((p - 1) * l)).take l)
              | none => (((sortDocs (docLe (o.sort.getD []))
                  (dbFind dbv table (f'.getD []))).drop ((p - 1) * l)).take l),
            table := table,
            totalDocs := (dbFind dbv table (f'.getD [])).length,
            totalPages := mathCeilDiv (dbFind dbv table (f'.getD [])).length l,
            currentPage := p, limit := l,
            message := o.returnedMessage, response_created_at := now },
          ?_, rfl, ?_, rfl, rfl, rfl, rfl, ?_, ?_, ?_⟩
  · simp only [_getAll, Option.some_bind, hp, hl, hc, hpn, hln, Option.map_some']
  · cases hlk : o.lookup with
    | none => simp [List.length_take_le]
    | some lk =>
      cases hpres : lookupFieldsPresent lk with
      | true => simp [hpres, List.length_take_le]
      | false => simp [hpres, List.length_take_le]
  · intro hlk
    simp [hlk]
  · intro lk hlk hpres
    simp [hlk, hpres]
  · intro hbeyond
    have hcount := le_mathCeilDiv_mul (dbFind dbv table (f'.getD [])).length l hl1
    have hmul : mathCeilDiv (dbFind dbv table (f'.getD [])).length l * l ≤ (p - 1) * l :=
      Nat.mul_le_mul_right l (by simpa using Nat.le_sub_one_of_lt hbeyond)
    have hlen : (sortDocs (docLe (o.sort.getD []))
        (dbFind dbv table (f'.getD []))).length ≤ (p - 1) * l := by
      rw [length_sortDocs]
      omega
    have hnil := List.drop_eq_nil_of_le hlen
    cases hlk : o.lookup with
    | none => simp [hnil]
    | some lk =>
      cases hpres : lookupFieldsPresent lk with
      | true => simp [hpres, hnil]
      | false => simp [hpres, hnil]

/-- C1 witness: 3 documents, `page = 2`, `limit = 2` — one document on
the last page, `totalPages = 2`, `currentPage = 2`; and the beyond-page
behaviour follows from the same theorem instance. -/
theorem claim_C1_witness :
    ∃ env, _getAll "users"
        [("users", [[("n", Value.vInt 1)], [("n", Value.vInt 2)], [("n", Value.vInt 3)]])]
        (some { filter := none, page := some 2, limit := some 2, sort := none,
                lookup := none, returnedMessage := none }) 0 =
      (.ok env, some { filter := none, page := some 2, limit := some 2, sort := none,
                       lookup := none, returnedMessage := none }) ∧
      env.status = "success" ∧
      env.data.length ≤ 2 ∧
      env.currentPage = 2 ∧
      env.limit = 2 ∧
      env.totalDocs = (dbFind
        [("users", [[("n", Value.vInt 1)], [("n", Value.vInt 2)], [("n", Value.vInt 3)]])]
        "users" ((none : Option Filter).getD [])).length ∧
      env.totalPages = env.totalDocs ⌈/⌉ 2 ∧
      ((none : Option Lookup) = none →
        env.data = ((sortDocs (docLe ((none : Option SortSpec).getD []))
          (dbFind [("users", [[("n", Value.vInt 1)], [("n", Value.vInt 2)], [("n", Value.vInt 3)]])]
            "users" ((none : Option Filter).getD []))).drop ((2 - 1) * 2)).take 2) ∧
      (∀ lk, (none : Option Lookup) = some lk → lookupFieldsPresent lk = true →
        env.data = (((sortDocs (docLe ((none : Option SortSpec).getD []))
          (dbFind [("users", [[("n", Value.vInt 1)], [("n", Value.vInt 2)], [("n", Value.vInt 3)]])]
            "users" ((none : Option Filter).getD []))).drop ((2 - 1) * 2)).take 2).map
              (lookupEnrich [("users", [[("n", Value.vInt 1)], [("n", Value.vInt 2)],
                [("n", Value.vInt 3)]])] lk)) ∧
      (env.totalPages < 2 → env.data = []) :=
  claim_C1_fetchMany_pagination "users"
    [("users", [[("n", Value.vInt 1)], [("n", Value.vInt 2)], [("n", Value.vInt 3)]])]
    { filter := none, page := some 2, limit := some 2, sort := none,
      lookup := none, returnedMessage := none } 0 2 2 none
    rfl rfl (by omega) (by omega) rfl

/-- C7: the lookup join always materialises the alias field (defaulting
to the local field name): it holds the first foreign document whose
foreign field equals the local value — and any found foreign document
does match that filter — or an explicit null when none matches; every
document returned by FetchMany or FetchOne under an enabled lookup is
such an enriched document. -/
theorem claim_C7_lookup_alias_never_omitted :
    (∀ (dbv : Db) (lk : Lookup) (d : Doc),
      getField (lookupEnrich dbv lk d) (asFieldName lk) =
        some (match dbFindOne dbv lk.foreign_collection
                [(lk.foreign_field, getValueD d lk.local_field)] with
              | some f => Value.vDocV f
              | none => Value.vNull)) ∧
    (∀ (dbv : Db) (coll : String) (flt : Filter) (f : Doc),
      dbFindOne dbv coll flt = some f → matchesFilter f flt = true) ∧
    (∀ (table : String) (dbv : Db) (o : GetAllOptions) (now : Int) (lk : Lookup)
        (env : GetAllSuccessResponse) (opts' : Option GetAllOptions),
      o.lookup = some lk → lookupFieldsPresent lk = true →
      _getAll table dbv (some o) now = (.ok env, opts') →
      ∀ d ∈ env.data, ∃ d0, d = lookupEnrich dbv lk d0) ∧
    (∀ (table : String) (dbv : Db) (o : GetOneOptions) (now : Int) (lk : Lookup)
        (env : GetOneSuccessResponse) (opts' : Option GetOneOptions) (d : Doc),
      o.lookup = some lk → lookupFieldsPresent lk = true →
      _getOne table dbv (some o) now = (.ok env, opts') →
      env.data = some d → ∃ d0, d = lookupEnrich dbv lk d0) := by
  refine ⟨?_, ?_, ?_, ?_⟩
  · intro dbv lk d
    simp only [lookupEnrich]
    cases hf : dbFindOne dbv lk.foreign_collection
        [(lk.foreign_field, getValueD d lk.local_field)] with
    | some f => simp [getField_setField_self]
    | none => simp [getField_setField_self]
  · exact fun dbv coll flt f h => dbFindOne_matches dbv coll flt f h
  · intro table dbv o now lk env opts' hlk hpres henv
    cases hc : coerceFilter o.filter with
    | error e =>
      rw [Prod.ext_iff] at henv
      exact absurd henv.1 (by simp [_getAll, hc])
    | ok f' =>
      have hdata : env.data =
          ((((sortDocs (docLe (o.sort.getD []))
            (dbFind dbv table (f'.getD []))).drop
              ((jsOrNat o.page 1 - 1) * jsOrNat o.limit 20)).take
                (jsOrNat o.limit 20)).map (lookupEnrich dbv lk)) := by
        have := congrArg Prod.fst henv
        simp only [_getAll, Option.some_bind, hc, hlk, hpres, if_true,
          Option.map_some'] at this
        exact (congrArg GetAllSuccessResponse.data (Except.ok.inj this)).symm
      intro d hd
      rw [hdata] at hd
      obtain ⟨d0, _, hd0⟩ := List.mem_map.mp hd
      exact ⟨d0, hd0.symm⟩
  · intro table dbv o now lk env opts' d hlk hpres henv hdata
    cases hc : coerceFilter o.filter with
    | error e =>
      rw [Prod.ext_iff] at henv
      exact absurd henv.1 (by simp [_getOne, hc])
    | ok f' =>
      cases hres : dbFindOne dbv table (f'.getD []) with
      | none =>
        have hnone : env.data = none := by
          have := congrArg Prod.fst henv
          simp only [_getOne, Option.some_bind, hc, hres, Option.map_some', hlk] at this
          exact (congrArg GetOneSuccessResponse.data (Except.ok.inj this)).symm
        rw [hnone] at hdata
        cases hdata
      | some d0 =>
        have hsome : env.data = some (lookupEnrich dbv lk d0) := by
          have := congrArg Prod.fst henv
          simp only [_getOne, Option.some_bind, hc, hres, Option.map_some', hlk,
            hpres, if_true] at this
          exact (congrArg GetOneSuccessResponse.data (Except.ok.inj this)).symm
        rw [hsome] at hdata
        exact ⟨d0, (Option.some.inj hdata).symm⟩

/-- C7 witness: a user joined to its role under alias `roleInfo`, and a
user with no matching role receiving an explicit null, evaluated
concretely. -/
theorem claim_C7_witness :
    getField (lookupEnrich
        [("roles", [[("rid", Value.vInt 1), ("name", Value.vStr "admin")]])]
        { local_field := "roleId", foreign_collection := "roles",
          foreign_field := "rid", as := some "roleInfo" }
        [("roleId", Value.vInt 1)]) "roleInfo" =
      some (match dbFindOne
          [("roles", [[("rid", Value.vInt 1), ("name", Value.vStr "admin")]])]
          "roles" [("rid", Value.vInt 1)] with
        | some f => Value.vDocV f
        | none => Value.vNull) ∧
    getField (lookupEnrich
        [("roles", [[("rid", Value.vInt 1), ("name", Value.vStr "admin")]])]
        { local_field := "roleId", foreign_collection := "roles",
          foreign_field := "rid", as := some "roleInfo" }
        [("roleId", Value.vInt 9)]) "roleInfo" =
      some (match dbFindOne
          [("roles", [[("rid", Value.vInt 1), ("name", Value.vStr "admin")]])]
          "roles" [("rid", Value.vInt 9)] with
        | some f => Value.vDocV f
        | none => Value.vNull) ∧
    (∀ d ∈ ([[("roleId", Value.vInt 1),
              ("roleInfo", Value.vDocV [("rid", Value.vInt 1),
                                        ("name", Value.vStr "admin")])]] : List Doc),
      ∃ d0, d = lookupEnrich
        [("users", [[("roleId", Value.vInt 1)]]),
         ("roles", [[("rid", Value.vInt 1), ("name", Value.vStr "admin")]])]
        { local_field := "roleId", foreign_collection := "roles",
          foreign_field := "rid", as := some "roleInfo" } d0) :=
  ⟨claim_C7_lookup_alias_never_omitted.1
      [("roles", [[("rid", Value.vInt 1), ("name", Value.vStr "admin")]])]
      { local_field := "roleId", foreign_collection := "roles",
        foreign_field := "rid", as := some "roleInfo" }
      [("roleId", Value.vInt 1)],
   claim_C7_lookup_alias_never_omitted.1
      [("roles", [[("rid", Value.vInt 1), ("name", Value.vStr "admin")]])]
      { local_field := "roleId", foreign_collection := "roles",
        foreign_field := "rid", as := some "roleInfo" }
      [("roleId", Value.vInt 9)],
   claim_C7_lookup_alias_never_omitted.2.2.1 "users"
      [("users", [[("roleId", Value.vInt 1)]]),
       ("roles", [[("rid", Value.vInt 1), ("name", Value.vStr "admin")]])]
      { filter := none, page := none, limit := none, sort := none,
        lookup := some { local_field := "roleId", foreign_collection := "roles",
                         foreign_field := "rid", as := some "roleInfo" },
        returnedMessage := none } 0
      { local_field := "roleId", foreign_collection := "roles",
        foreign_field := "rid", as := some "roleInfo" }
      { status := "success",
        data := [[("roleId", Value.vInt 1),
                  ("roleInfo", Value.vDocV [("rid", Value.vInt 1),
                                            ("name", Value.vStr "admin")])]],
        table := "users", totalDocs := 1, totalPages := 1, currentPage := 1,
        limit := 20, message := none, response_created_at := 0 }
      (some { filter := none, page := none, limit := none, sort := none,
              lookup := some { local_field := "roleId", foreign_collection := "roles",
                               foreign_field := "rid", as := some "roleInfo" },
              returnedMessage := none }) rfl rfl (by rfl)⟩

end VeryExpress
